import Mathlib

/-!
# Verification of the `pluck` build-and-inject pipeline

Shallow embedding of `scripts/makinoa/__main__.py`, the single source file of
the repository, together with proofs about its free-space locator
(`find_needed_words`), its word-alignment helper (`round_up_to_4`), the
derived word count (`needed_words`), and the external-tool orchestration
pipeline (compile loop, relocatable merge, configuration validation,
assembler invocation).

Conventions of the embedding:
* Bytes are `Nat` values; a binary file is a `List Nat`.  `rom.read(4)` at
  file position `pos` is `(img.drop pos).take 4`: it yields up to four bytes
  and fewer (possibly zero) past end of file, exactly like Python's `read`.
* The `while record < needed_words` loop of `find_needed_words` is modelled
  by a step function `scanStep` on the loop state (file position, `record`,
  `start`) iterated by a fuel-indexed driver `scanLoop`; `none` means the
  fuel ran out, which models the loop still running (past end of file every
  read returns `[]`, the state freezes and the Python loop never exits).
* Python integers are `Nat` where the source values are provably
  non-negative and `Int` where a sign can occur (the `reserve` field and
  tool exit codes).
* Fallible operations return `Option`; the `TypeError`/`ValueError` crashes
  Python would raise on the negative corner cases are the `crashed` outcome
  of the pipeline model.
-/

/-- `offset_mask = 0x08000000`, the GBA ROM address base used by the script
to translate between ROM addresses and file offsets. -/
def offset_mask : Nat := 0x08000000

/-- One `rom.read(4)` at position `pos`: up to four bytes, fewer at end of
file. -/
def readWord (img : List Nat) (pos : Nat) : List Nat :=
  (img.drop pos).take 4

/-- The four-byte pattern `b"\xff\xff\xff\xff"` of an erased word. -/
def erasedBytes : List Nat := [0xff, 0xff, 0xff, 0xff]

/-- `pos` starts an erased run of `n` consecutive aligned words. -/
def erasedRun (img : List Nat) (pos n : Nat) : Prop :=
  ∀ i < n, readWord img (pos + 4 * i) = erasedBytes

instance (img : List Nat) (pos n : Nat) : Decidable (erasedRun img pos n) :=
  inferInstanceAs (Decidable (∀ i < n, readWord img (pos + 4 * i) = erasedBytes))

/-- The state of the scan loop of `find_needed_words`: the file position of
the underlying handle, the `record` counter and the `start` variable. -/
structure ScanState where
  pos : Nat
  record : Nat
  start : Option Nat
deriving DecidableEq

/-- One iteration of the body of the `while record < needed_words` loop:

    val = rom.read(4)
    if val == b"\xff\xff\xff\xff":
        if start is None:
            if record == 0:
                record = 1
            start = rom.tell() - 4
        else:
            record += 1
    else:
        start = None

A full (four-byte) read advances the position by 4, a short read by the
number of bytes actually read.  Note that the non-erased branch clears only
`start`; `record` keeps its value. -/
def scanStep (img : List Nat) (s : ScanState) : ScanState :=
  let val := readWord img s.pos
  if val = erasedBytes then
    match s.start with
    | none => ⟨s.pos + 4, if s.record = 0 then 1 else s.record, some s.pos⟩
    | some a => ⟨s.pos + 4, s.record + 1, some a⟩
  else
    ⟨s.pos + val.length, s.record, none⟩

/-- The `while record < needed_words` loop, driven by fuel.  `none` means
the fuel was exhausted with the loop still running. -/
def scanLoop (img : List Nat) (needed : Nat) : Nat → ScanState → Option ScanState
  | 0, _ => none
  | fuel + 1, s =>
    if s.record < needed then scanLoop img needed fuel (scanStep img s)
    else some s

/-- `find_needed_words(needed_words, free_space)` from the source:

    def find_needed_words(needed_words, free_space):
        if needed_words == 0:
            return 0
        with open("rom.gba", "rb") as rom:
            rom.seek(offset_mask ^ free_space)
            record, start = 0, None
            while record < needed_words:
                ...
        return start ^ offset_mask

The ROM file is the explicit argument `img`.  The inner `none` case of the
final match is unreachable when the loop exits (Python would raise a
`TypeError` on `None ^ int`). -/
def find_needed_words (img : List Nat) (needed_words free_space fuel : Nat) : Option Nat :=
  if needed_words = 0 then some 0
  else
    match scanLoop img needed_words fuel ⟨offset_mask ^^^ free_space, 0, none⟩ with
    | none => none
    | some s =>
      match s.start with
      | none => none
      | some a => some (a ^^^ offset_mask)

/-- `round_up_to_4` from the source:

    def round_up_to_4(x):
        if x & 0x3 == 0:
            return x
        else:
            return round_up_to_4(x + 1)
-/
def round_up_to_4 (x : Nat) : Nat :=
  if x &&& 0x3 = 0 then x
  else round_up_to_4 (x + 1)
termination_by (4 - x % 4) % 4
decreasing_by
  have h3 : x &&& 0x3 = x % 4 := Nat.and_pow_two_sub_one_eq_mod x 2
  omega

/-- The same function on Python integers of arbitrary sign (as applied to
`os.stat(relocatable).st_size + reserve`, where `reserve` may be negative).
Python's `x & 0x3 == 0` on a signed integer is `x % 4 == 0` with a
non-negative remainder, which is `Int.emod` by 4. -/
def round_up_to_4_int (x : Int) : Int :=
  if x % 4 = 0 then x
  else round_up_to_4_int (x + 1)
termination_by ((4 - x % 4) % 4).toNat
decreasing_by omega

/-- `needed_words = round_up_to_4(os.stat(relocatable).st_size + reserve) >> 2`
restricted to a non-negative byte count, as in the claim about it. -/
def needed_words_of (sizeBytes reserveBytes : Nat) : Nat :=
  round_up_to_4 (sizeBytes + reserveBytes) >>> 2

/-! ## Pipeline orchestration model

The rest of the script is a linear pipeline: configuration validation,
toolchain discovery, per-file compilation, relocatable merge, the free-space
scan, and the assembler invocation.  External tools are opaque: their exit
codes (and the size of the blob the linker writes) are oracles in `Env`.
The model records every external tool invocation in a trace. -/

/-- The compiler flag chosen for a file in the `short-calls` set. -/
def shortFlag : String := "-mno-long-calls"

/-- The compiler flag chosen for every other file. -/
def longFlag : String := "-mlong-calls"

/-- Python's `s.replace(".c", ".o")` on the character list of `s`:
every non-overlapping occurrence of the two-character pattern `.c` is
replaced by `.o`, scanning left to right, exactly as `str.replace` does
for this pattern. -/
def replaceDotC : List Char → List Char
  | [] => []
  | '.' :: 'c' :: rest => '.' :: 'o' :: replaceDotC rest
  | c :: rest => c :: replaceDotC rest

/-- `srcfile.replace(".c", ".o")`, the object name of a source file.
Note the replace-all semantics: `"b.c.c"` becomes `"b.o.o"`, not
`"b.o.c"`. -/
def objOf (f : String) : String := ⟨replaceDotC f.data⟩

/-- One recorded invocation of an external tool. -/
inductive ToolCall where
  | cc (file : String) (flag : String)
  | ld (objs : List String)
  | armips (allocationSize : Int)
deriving DecidableEq

/-- How a pipeline run ends: a `sys.exit` / clean exit with a code, the
unbounded scan loop never exiting, or an uncaught Python exception on the
negative-integer corner cases. -/
inductive Outcome where
  | exited (code : Int)
  | hung
  | crashed
deriving DecidableEq

/-- The configuration after the `config.ini` reads: each numeric field keeps
its raw string (used in diagnostics) and the outcome of the Python `int`
conversion (`none` when `int` raises `ValueError`). -/
structure RawConfig where
  freeSpaceStr : String
  freeSpaceParse : Option Int
  reserveStr : String
  reserveParse : Option Int
  optimizationLevel : String
  shortCalls : List String
  defines : List (String × Option String)

/-- The pipeline's environment: the `*.c` files of `src` in directory
order, tool discovery outcomes, the exit code of each external tool, the
size the linker gives the blob, the ROM image, and fuel for the scan. -/
structure Env where
  srcFiles : List String
  toolchainFound : Bool
  armipsFound : Bool
  cc : String → Int
  ldExit : Int
  ldSize : Nat
  armipsExit : Int
  rom : List Nat
  fuel : Nat

/-- A finished run: how it ended, the external tools invoked (in order),
and the diagnostics printed. -/
structure PResult where
  outcome : Outcome
  calls : List ToolCall
  diag : List String
deriving DecidableEq

/-- The accepted optimization levels, as in the source. -/
def validOptLevels : List String :=
  ["-O", "-O0", "-O1", "-O2", "-O3", "-Ofast", "-Og", "-Os"]

/-- `f"Error :: {free_space} is not a hexadecimal integer."` -/
def hexDiag (v : String) : String :=
  "Error :: " ++ v ++ " is not a hexadecimal integer."

/-- `f"Error :: {reserve} is not a decimal integer."` -/
def decDiag (v : String) : String :=
  "Error :: " ++ v ++ " is not a decimal integer."

/-- `f"Error :: {optimization_level} is not an understood optimization level."` -/
def optDiag (v : String) : String :=
  "Error :: " ++ v ++ " is not an understood optimization level."

/-- The calling-convention flag of a file:
`"-mno-long-calls" if srcfile in short_calls else "-mlong-calls"`. -/
def ccFlag (cfg : RawConfig) (f : String) : String :=
  if f ∈ cfg.shortCalls then shortFlag else longFlag

/-- The compile loop over the source files.  Returns the compiler calls
made, the `long_calls` list accumulated so far, and `some code` as soon as
a compiler invocation exits non-zero (the loop stops there, and the failing
file is not added to `long_calls`). -/
def compileAll (cfg : RawConfig) (env : Env) : List String → List ToolCall × List String × Option Int
  | [] => ([], [], none)
  | f :: fs =>
    if env.cc f = 0 then
      let r := compileAll cfg env fs
      (ToolCall.cc f (ccFlag cfg f) :: r.1,
       (if f ∈ cfg.shortCalls then r.2.1 else f :: r.2.1),
       r.2.2)
    else
      ([ToolCall.cc f (ccFlag cfg f)], [], some (env.cc f))

/-- The `long_calls` set as the sublist of source files outside
`short_calls` (a deterministic presentation of the Python set). -/
def longOf (cfg : RawConfig) (fs : List String) : List String :=
  fs.filter (fun g => decide (g ∉ cfg.shortCalls))

/-- The compiler call of every source file, in order. -/
def allCC (cfg : RawConfig) (fs : List String) : List ToolCall :=
  fs.map (fun g => ToolCall.cc g (ccFlag cfg g))

/-- The size of `build/src/relocatable.o` after the merge step: the file is
created empty, and the linker overwrites it only when `long_calls` is
non-empty. -/
def blobSizeOf (cfg : RawConfig) (env : Env) : Nat :=
  if longOf cfg env.srcFiles = [] then 0 else env.ldSize

/-- `needed_words = round_up_to_4(os.stat(relocatable).st_size + reserve) >> 2`
on the signed `reserve`: for the positive divisor 4, Python's floor
division (`>> 2`) and Lean's euclidean `Int` division agree. -/
def neededWordsI (reserve : Int) (blobSize : Nat) : Int :=
  round_up_to_4_int (Int.ofNat blobSize + reserve) / 4

/-- `free_space |= offset_mask; free_space = round_up_to_4(free_space)` for
a non-negative parsed `free-space` value. -/
def freeSpaceNorm (fs0 : Int) : Nat :=
  round_up_to_4 (fs0.toNat ||| offset_mask)

/-- Everything after the merge step: computing `needed_words`, normalizing
`free_space`, armips discovery, the patch step (which runs the free-space
scan), and the assembler invocation.  `fs0` and `reserve` are the parsed
configuration integers and `blobSize` the merged blob's size.  A negative
`needed_words` makes the scan loop exit immediately with `start = None` and
`start ^ offset_mask` raise a `TypeError`; a negative `free_space` makes
`rom.seek` raise a `ValueError`: both are `crashed` (neither is reachable
in the claims, which all have non-negative fields). -/
def afterBlob (env : Env) (reserve fs0 : Int) (calls : List ToolCall) (blobSize : Nat) : PResult :=
  if env.armipsFound = false then
    ⟨Outcome.exited 1, calls, ["Error :: Can't find armips."]⟩
  else if neededWordsI reserve blobSize < 0 ∨ (0 < neededWordsI reserve blobSize ∧ fs0 < 0) then
    ⟨Outcome.crashed, calls, []⟩
  else
    match find_needed_words env.rom (neededWordsI reserve blobSize).toNat (freeSpaceNorm fs0) env.fuel with
    | none => ⟨Outcome.hung, calls, []⟩
    | some _ =>
      if env.armipsExit = 0 then
        ⟨Outcome.exited 0,
          calls ++ [ToolCall.armips (Int.ofNat ((neededWordsI reserve blobSize).toNat <<< 2))], []⟩
      else
        ⟨Outcome.exited env.armipsExit,
          calls ++ [ToolCall.armips (Int.ofNat ((neededWordsI reserve blobSize).toNat <<< 2))],
          ["Error :: Assembly failed."]⟩

/-- The whole pipeline: validation of the three configuration fields (in
source order), devkitARM discovery, the compile loop, the merge step, and
the continuation `afterBlob`. -/
def runPipeline (cfg : RawConfig) (env : Env) : PResult :=
  match cfg.freeSpaceParse with
  | none => ⟨Outcome.exited 1, [], [hexDiag cfg.freeSpaceStr]⟩
  | some fs0 =>
    match cfg.reserveParse with
    | none => ⟨Outcome.exited 1, [], [decDiag cfg.reserveStr]⟩
    | some reserve =>
      if cfg.optimizationLevel ∈ validOptLevels then
        if env.toolchainFound = false then
          ⟨Outcome.exited 1, [], ["Error :: Can't find devkitARM."]⟩
        else
          match compileAll cfg env env.srcFiles with
          | (calls, _, some c) => ⟨Outcome.exited c, calls, ["Error :: Compilation failed."]⟩
          | (calls, longCalls, none) =>
            if longCalls = [] then afterBlob env reserve fs0 calls 0
            else
              if env.ldExit = 0 then
                afterBlob env reserve fs0 (calls ++ [ToolCall.ld (longCalls.map objOf)]) env.ldSize
              else
                ⟨Outcome.exited env.ldExit, calls ++ [ToolCall.ld (longCalls.map objOf)],
                  ["Error :: Linking failed."]⟩
      else ⟨Outcome.exited 1, [], [optDiag cfg.optimizationLevel]⟩

/-- The object files handed to the first linker invocation of a trace
(`[]` when the linker is never invoked). -/
def ldInputs : List ToolCall → List String
  | [] => []
  | ToolCall.ld objs :: _ => objs
  | _ :: rest => ldInputs rest

/-! ## Concrete images used for counterexamples and bug witnesses -/

/-- 36-byte image: an erased run of 2 words at offset 0, a used word at 8,
an erased run of 2 words at 12, a used word at 20, an erased run of 3 words
at 24. -/
def imgA : List Nat :=
  List.replicate 8 0xff ++ List.replicate 4 0 ++ List.replicate 8 0xff ++
    List.replicate 4 0 ++ List.replicate 12 0xff

/-- 12-byte image: an erased run of 2 words at offset 0, then a used word
at 8. -/
def imgB : List Nat :=
  List.replicate 8 0xff ++ List.replicate 4 0

/-- 24-byte image with two separated erased runs of 2 words each (offsets 0
and 12) and no erased run of 3 words anywhere. -/
def imgC : List Nat :=
  List.replicate 8 0xff ++ List.replicate 4 0 ++ List.replicate 8 0xff ++
    List.replicate 4 0

/-! ## Concrete configurations and environments used in witnesses -/

/-- A well-formed configuration: both numeric fields parse and the
optimization level is accepted; no short-call files. -/
def cfgGood : RawConfig :=
  ⟨"0x08800000", some 0x08800000, "0", some 0, "-O2", [], []⟩

/-- The same configuration with `a.c` declared short-call. -/
def cfgShort : RawConfig :=
  ⟨"0x08800000", some 0x08800000, "0", some 0, "-O2", ["a.c"], []⟩

/-- A configuration whose `free-space` field does not parse as hexadecimal. -/
def cfgBadHex : RawConfig :=
  ⟨"xyz", none, "0", some 0, "-O2", [], []⟩

/-- Environment: one source file whose compilation fails with exit code 3. -/
def envCompileFail : Env :=
  ⟨["a.c"], true, true, fun _ => 3, 0, 0, 0, [], 0⟩

/-- Environment: compilation succeeds, linking fails with exit code 5. -/
def envLinkFail : Env :=
  ⟨["a.c"], true, true, fun _ => 0, 5, 0, 0, [], 0⟩

/-- Environment: no source files, assembler fails with exit code 7. -/
def envAsmFail : Env :=
  ⟨[], true, true, fun _ => 0, 0, 0, 7, [], 0⟩

/-- Environment: one source file, every external tool succeeds. -/
def envOk : Env :=
  ⟨["a.c"], true, true, fun _ => 0, 0, 0, 0, [], 0⟩

/-- A configuration whose only flaw is the optimization level `-O9`. -/
def cfgBadOpt : RawConfig :=
  ⟨"0x08800000", some 0x08800000, "0", some 0, "-O9", [], []⟩

/-- Configuration for the object-name-collision scenario: the file
`b.o.c` is short-call. -/
def cfgC8 : RawConfig :=
  ⟨"0x08800000", some 0x08800000, "0", some 0, "-O2", ["b.o.c"], []⟩

/-- Environment for the collision scenario: the two distinct source names
`b.o.c` and `b.c.c` both rename to the object name `b.o.o`; every tool
succeeds. -/
def envC8 : Env :=
  ⟨["b.o.c", "b.c.c"], true, true, fun _ => 0, 0, 0, 0, [], 0⟩

theorem land_three (x : Nat) : x &&& 0x3 = x % 4 :=
  Nat.and_pow_two_sub_one_eq_mod x 2

theorem round_up_eq (x : Nat) : round_up_to_4 x = x + (4 - x % 4) % 4 := by
  have h4 : x % 4 = 0 ∨ x % 4 = 1 ∨ x % 4 = 2 ∨ x % 4 = 3 := by omega
  rcases h4 with h | h | h | h
  · rw [round_up_to_4, if_pos (by rw [land_three]; omega)]
    omega
  · rw [round_up_to_4, if_neg (by rw [land_three]; omega),
      round_up_to_4, if_neg (by rw [land_three]; omega),
      round_up_to_4, if_neg (by rw [land_three]; omega),
      round_up_to_4, if_pos (by rw [land_three]; omega)]
    omega
  · rw [round_up_to_4, if_neg (by rw [land_three]; omega),
      round_up_to_4, if_neg (by rw [land_three]; omega),
      round_up_to_4, if_pos (by rw [land_three]; omega)]
    omega
  · rw [round_up_to_4, if_neg (by rw [land_three]; omega),
      round_up_to_4, if_pos (by rw [land_three]; omega)]
    omega

theorem round_up_int_eq (x : Int) : round_up_to_4_int x = x + (4 - x % 4) % 4 := by
  have h4 : x % 4 = 0 ∨ x % 4 = 1 ∨ x % 4 = 2 ∨ x % 4 = 3 := by omega
  rcases h4 with h | h | h | h
  · rw [round_up_to_4_int, if_pos h]
    omega
  · rw [round_up_to_4_int, if_neg (by omega),
      round_up_to_4_int, if_neg (by omega),
      round_up_to_4_int, if_neg (by omega),
      round_up_to_4_int, if_pos (by omega)]
    omega
  · rw [round_up_to_4_int, if_neg (by omega),
      round_up_to_4_int, if_neg (by omega),
      round_up_to_4_int, if_pos (by omega)]
    omega
  · rw [round_up_to_4_int, if_neg (by omega),
      round_up_to_4_int, if_pos (by omega)]
    omega

/-! ## Claims about the free-space locator and the arithmetic helpers -/

/-- Claim C1 (code bug): the claim says the locator returns the address of
the first contiguous run of at least `neededWords` erased aligned words.
On `imgA` with `neededWords = 3` the first (and only) such run starts at
byte offset 24 (address `24 ^^^ offset_mask = 0x08000018`), yet the code
returns `0x0800000C`, the address of byte offset 12, which starts a run of
only two erased words: the non-erased word at offset 8 clears `start` but
not `record`, so the count carries over across the gap. -/
theorem C1_locator_bug :
    find_needed_words imgA 3 offset_mask 8 = some 0x0800000C
  ∧ erasedRun imgA 24 3
  ∧ (∀ q < 24, ¬ erasedRun imgA q 3)
  ∧ (0x0800000C : Nat) ≠ 24 ^^^ offset_mask := by
  decide

/-- Claim C2 (code bug): the claim says a non-erased word resets both scan
state components (`record` back to 0 and `start` cleared).  In the state
reached after the two erased words of `imgB` (`record = 2`, `start = 0`),
reading the non-erased word at offset 8 clears `start` but leaves
`record = 2`: only one of the two components is reset. -/
theorem C2_reset_bug :
    scanStep imgB (scanStep imgB ⟨0, 0, none⟩) = ⟨8, 2, some 0⟩
  ∧ scanStep imgB ⟨8, 2, some 0⟩ = ⟨12, 2, none⟩
  ∧ (scanStep imgB ⟨8, 2, some 0⟩).record ≠ 0 := by
  decide

/-- Claim C3, counterexample: with `neededWords = 0` and start address
`0x08800000` the locator returns `0`, not the start address as claimed. -/
theorem C3_counterexample :
    find_needed_words [] 0 0x08800000 0 = some 0 ∧ (0 : Nat) ≠ 0x08800000 := by
  decide

/-- Claim C3, amended: for every image, start address and fuel, when
`neededWords = 0` the locator returns the constant `0` (not the start
address); the result does not depend on the image, so the image content is
never read. -/
theorem C3_zero_words (img : List Nat) (free_space fuel : Nat) :
    find_needed_words img 0 free_space fuel = some 0 := rfl

/-- Claim C4 (code bug): the claim says the locator fails to terminate on
every image with no sufficient erased run at or after the start offset.
`imgC` contains no erased run of 3 words (no interior offset starts one,
and every read at or past offset 24 is short, hence non-erased), yet the
scan exits after 6 iterations and returns `0x0800000C`: the carried-over
`record` reaches 3 across two separate 2-word runs. -/
theorem C4_termination_bug :
    find_needed_words imgC 3 offset_mask 8 = some 0x0800000C
  ∧ (∀ q < 24, ¬ erasedRun imgC q 3)
  ∧ (∀ q, 24 ≤ q → readWord imgC q ≠ erasedBytes) := by
  refine ⟨by decide, by decide, ?_⟩
  intro q hq
  have h1 : imgC.length = 24 := by decide
  have h2 : imgC.drop q = [] := List.drop_eq_nil_of_le (by omega)
  simp [readWord, h2, erasedBytes]

/-- Claim C5 (confirmed): for all non-negative `sizeBytes` and
`reserveBytes`, `needed_words = round_up_to_4(sizeBytes + reserveBytes) >> 2`
equals `ceil((sizeBytes + reserveBytes) / 4)`, and when the sum is exactly
divisible by 4 no extra word is added. -/
theorem C5_needed_words (s r : Nat) :
    needed_words_of s r = (s + r + 3) / 4
  ∧ ((s + r) % 4 = 0 → needed_words_of s r = (s + r) / 4) := by
  have h : needed_words_of s r = (s + r + 3) / 4 := by
    unfold needed_words_of
    rw [round_up_eq, Nat.shiftRight_eq_div_pow]
    norm_num
    omega
  exact ⟨h, fun hd => by omega⟩

/-- Witness for C5 at `sizeBytes = 4`, `reserveBytes = 8`. -/
theorem C5_witness : needed_words_of 4 8 = (4 + 8) / 4 :=
  (C5_needed_words 4 8).2 (by decide)

/-- Claim C6, counterexample: the claim says `align(addr)`, `align(addr+1)`,
`align(addr+2)`, `align(addr+3)` coincide for every non-negative `addr`;
at `addr = 0` the function gives `align(0) = 0` but `align(1) = 4`. -/
theorem C6_counterexample :
    round_up_to_4 0 = 0 ∧ round_up_to_4 1 = 4 ∧ round_up_to_4 0 ≠ round_up_to_4 1 := by
  rw [round_up_eq 0, round_up_eq 1]
  decide

/-- Claim C6, amended: the alignment function is idempotent on 4-aligned
addresses, and for every address it returns the least multiple of 4 that is
`≥` the address (so `align(addr) ∈ [addr, addr + 4)` and is a multiple of
4); but the four values `align(a) .. align(a+3)` do not coincide at an
aligned `a`: `align(a) = a` while the other three equal `a + 4`. -/
theorem C6_alignment (a addr : Nat) (ha : a % 4 = 0) :
    round_up_to_4 a = a
  ∧ round_up_to_4 (a + 1) = a + 4
  ∧ round_up_to_4 (a + 2) = a + 4
  ∧ round_up_to_4 (a + 3) = a + 4
  ∧ addr ≤ round_up_to_4 addr
  ∧ round_up_to_4 addr % 4 = 0
  ∧ round_up_to_4 addr < addr + 4 := by
  rw [round_up_eq a, round_up_eq (a + 1), round_up_eq (a + 2), round_up_eq (a + 3),
    round_up_eq addr]
  omega

/-- Witness for C6 at the aligned address `8` and the probe address `5`. -/
theorem C6_witness :
    round_up_to_4 8 = 8 ∧ round_up_to_4 9 = 12 ∧ round_up_to_4 10 = 12
  ∧ round_up_to_4 11 = 12 ∧ 5 ≤ round_up_to_4 5 ∧ round_up_to_4 5 % 4 = 0
  ∧ round_up_to_4 5 < 9 :=
  C6_alignment 8 5 (by decide)

/-! ## Helper lemmas about the pipeline model -/

theorem compileAll_success (cfg : RawConfig) (env : Env) (fs : List String)
    (h : ∀ g ∈ fs, env.cc g = 0) :
    compileAll cfg env fs = (allCC cfg fs, longOf cfg fs, none) := by
  induction fs with
  | nil => rfl
  | cons f fs ih =>
    have hf : env.cc f = 0 := h f (by simp)
    have ih2 := ih (fun g hg => h g (by simp [hg]))
    by_cases hs : f ∈ cfg.shortCalls <;>
      simp [compileAll, hf, ih2, allCC, longOf, List.filter_cons, hs]

theorem compileAll_fail (cfg : RawConfig) (env : Env) (f : String) (pre post : List String)
    (hpre : ∀ g ∈ pre, env.cc g = 0) (hf : env.cc f ≠ 0) :
    compileAll cfg env (pre ++ f :: post) =
      (allCC cfg (pre ++ [f]), longOf cfg pre, some (env.cc f)) := by
  induction pre with
  | nil => simp [compileAll, hf, allCC, longOf]
  | cons p pre ih =>
    have hp : env.cc p = 0 := hpre p (by simp)
    have ih2 := ih (fun g hg => hpre g (by simp [hg]))
    by_cases hs : p ∈ cfg.shortCalls <;>
      simp [compileAll, hp, ih2, allCC, longOf, List.filter_cons, hs]

theorem ldInputs_allCC_append (cfg : RawConfig) (fs : List String) (l : List ToolCall) :
    ldInputs (allCC cfg fs ++ l) = ldInputs l := by
  induction fs with
  | nil => rfl
  | cons f fs ih => exact ih

theorem ldInputs_append_armips (l : List ToolCall) (v : Int) :
    ldInputs (l ++ [ToolCall.armips v]) = ldInputs l := by
  induction l with
  | nil => rfl
  | cons c l ih => cases c <;> simp [ldInputs, ih]

theorem afterBlob_calls (env : Env) (reserve fs0 : Int) (calls : List ToolCall) (b : Nat) :
    (afterBlob env reserve fs0 calls b).calls = calls ∨
      ∃ v, (afterBlob env reserve fs0 calls b).calls = calls ++ [ToolCall.armips v] := by
  unfold afterBlob
  split
  · exact Or.inl rfl
  · split
    · exact Or.inl rfl
    · split
      · exact Or.inl rfl
      · split
        · exact Or.inr ⟨_, rfl⟩
        · exact Or.inr ⟨_, rfl⟩

theorem runPipeline_success (cfg : RawConfig) (env : Env) (fs0 reserve : Int)
    (hf : cfg.freeSpaceParse = some fs0) (hr : cfg.reserveParse = some reserve)
    (ho : cfg.optimizationLevel ∈ validOptLevels) (ht : env.toolchainFound = true)
    (hcc : ∀ g ∈ env.srcFiles, env.cc g = 0) :
    runPipeline cfg env =
      (if longOf cfg env.srcFiles = [] then
        afterBlob env reserve fs0 (allCC cfg env.srcFiles) 0
      else if env.ldExit = 0 then
        afterBlob env reserve fs0
          (allCC cfg env.srcFiles ++ [ToolCall.ld ((longOf cfg env.srcFiles).map objOf)])
          env.ldSize
      else
        ⟨Outcome.exited env.ldExit,
          allCC cfg env.srcFiles ++ [ToolCall.ld ((longOf cfg env.srcFiles).map objOf)],
          ["Error :: Linking failed."]⟩) := by
  unfold runPipeline
  rw [hf, hr]
  dsimp only
  rw [if_pos ho, ht, compileAll_success cfg env env.srcFiles hcc]
  simp

theorem runPipeline_compile_fail (cfg : RawConfig) (env : Env) (fs0 reserve : Int)
    (hf : cfg.freeSpaceParse = some fs0) (hr : cfg.reserveParse = some reserve)
    (ho : cfg.optimizationLevel ∈ validOptLevels) (ht : env.toolchainFound = true)
    (pre : List String) (f : String) (post : List String)
    (hs : env.srcFiles = pre ++ f :: post)
    (hpre : ∀ g ∈ pre, env.cc g = 0) (hfail : env.cc f ≠ 0) :
    runPipeline cfg env =
      ⟨Outcome.exited (env.cc f), allCC cfg (pre ++ [f]), ["Error :: Compilation failed."]⟩ := by
  unfold runPipeline
  rw [hf, hr]
  dsimp only
  rw [if_pos ho, ht, hs, compileAll_fail cfg env f pre post hpre hfail]
  simp

theorem afterBlob_success (env : Env) (reserve fs0 : Int) (calls : List ToolCall) (b : Nat)
    (haf : env.armipsFound = true) (hnw : 0 ≤ neededWordsI reserve b) (hfs : 0 ≤ fs0)
    (a : Nat)
    (hfind : find_needed_words env.rom (neededWordsI reserve b).toNat (freeSpaceNorm fs0) env.fuel
      = some a) :
    afterBlob env reserve fs0 calls b =
      (if env.armipsExit = 0 then
        ⟨Outcome.exited 0,
          calls ++ [ToolCall.armips (Int.ofNat ((neededWordsI reserve b).toNat <<< 2))], []⟩
      else
        ⟨Outcome.exited env.armipsExit,
          calls ++ [ToolCall.armips (Int.ofNat ((neededWordsI reserve b).toNat <<< 2))],
          ["Error :: Assembly failed."]⟩) := by
  unfold afterBlob
  rw [haf, if_neg (by simp), if_neg (by omega), hfind]

/-! ## Claims about the orchestration pipeline -/

/-- Claim C7 (confirmed): whenever an external tool (compiler, linker or
assembler) exits non-zero, the pipeline terminates at that stage with
exactly that exit code; the recorded call trace shows that no later stage
runs and the failing invocation is not retried.  The three conjuncts cover
the three tool invocations: (1) the first failing compiler invocation ends
the run with its code, with exactly one call per file up to and including
the failing one; (2) a failing linker ends the run with its code after the
compiler calls plus the single linker call; (3) a failing assembler ends
the run with its code, the assembler call being the single last call. -/
theorem C7_failfast (cfg : RawConfig) (env : Env) (fs0 reserve : Int)
    (hf : cfg.freeSpaceParse = some fs0) (hr : cfg.reserveParse = some reserve)
    (ho : cfg.optimizationLevel ∈ validOptLevels) (ht : env.toolchainFound = true) :
    (∀ pre f post, env.srcFiles = pre ++ f :: post → (∀ g ∈ pre, env.cc g = 0) →
      env.cc f ≠ 0 →
      runPipeline cfg env =
        ⟨Outcome.exited (env.cc f), allCC cfg (pre ++ [f]), ["Error :: Compilation failed."]⟩)
  ∧ ((∀ g ∈ env.srcFiles, env.cc g = 0) → longOf cfg env.srcFiles ≠ [] → env.ldExit ≠ 0 →
      runPipeline cfg env =
        ⟨Outcome.exited env.ldExit,
          allCC cfg env.srcFiles ++ [ToolCall.ld ((longOf cfg env.srcFiles).map objOf)],
          ["Error :: Linking failed."]⟩)
  ∧ (∀ blob, (∀ g ∈ env.srcFiles, env.cc g = 0) →
      (longOf cfg env.srcFiles = [] ∧ blob = 0 ∨
        longOf cfg env.srcFiles ≠ [] ∧ env.ldExit = 0 ∧ blob = env.ldSize) →
      env.armipsFound = true → 0 ≤ neededWordsI reserve blob → 0 ≤ fs0 →
      (∃ a, find_needed_words env.rom (neededWordsI reserve blob).toNat (freeSpaceNorm fs0)
        env.fuel = some a) →
      env.armipsExit ≠ 0 →
      runPipeline cfg env =
        ⟨Outcome.exited env.armipsExit,
          allCC cfg env.srcFiles ++
            (if longOf cfg env.srcFiles = [] then []
              else [ToolCall.ld ((longOf cfg env.srcFiles).map objOf)]) ++
            [ToolCall.armips (Int.ofNat ((neededWordsI reserve blob).toNat <<< 2))],
          ["Error :: Assembly failed."]⟩) := by
  refine ⟨?_, ?_, ?_⟩
  · intro pre f post hs hpre hfail
    exact runPipeline_compile_fail cfg env fs0 reserve hf hr ho ht pre f post hs hpre hfail
  · intro hcc hlong hld
    rw [runPipeline_success cfg env fs0 reserve hf hr ho ht hcc, if_neg hlong, if_neg hld]
  · intro blob hcc hblob haf hnw hfs hfind hax
    obtain ⟨a, hfind⟩ := hfind
    rw [runPipeline_success cfg env fs0 reserve hf hr ho ht hcc]
    rcases hblob with ⟨hl, hb⟩ | ⟨hl, hld, hb⟩
    · subst hb
      rw [if_pos hl, afterBlob_success env reserve fs0 _ 0 haf hnw hfs a hfind,
        if_neg hax, hl]
      simp
    · subst hb
      rw [if_neg hl, if_pos hld,
        afterBlob_success env reserve fs0 _ env.ldSize haf hnw hfs a hfind, if_neg hax,
        if_neg hl]

/-- Witness for C7: three concrete runs, one per failing stage.  With
`envCompileFail` the compiler fails with code 3; with `envLinkFail` the
linker fails with code 5; with `envAsmFail` the assembler fails with
code 7. -/
theorem C7_witness :
    runPipeline cfgGood envCompileFail =
      ⟨Outcome.exited 3, [ToolCall.cc "a.c" longFlag], ["Error :: Compilation failed."]⟩
  ∧ runPipeline cfgGood envLinkFail =
      ⟨Outcome.exited 5, [ToolCall.cc "a.c" longFlag, ToolCall.ld [objOf "a.c"]],
        ["Error :: Linking failed."]⟩
  ∧ runPipeline cfgGood envAsmFail =
      ⟨Outcome.exited 7, [ToolCall.armips 0], ["Error :: Assembly failed."]⟩ := by
  refine ⟨?_, ?_, ?_⟩
  · exact (C7_failfast cfgGood envCompileFail 0x08800000 0 rfl rfl (by decide) rfl).1
      [] "a.c" [] rfl (by simp) (by decide)
  · exact (C7_failfast cfgGood envLinkFail 0x08800000 0 rfl rfl (by decide) rfl).2.1
      (by decide) (by decide) (by decide)
  · have h0 : neededWordsI 0 0 = 0 := by
      unfold neededWordsI
      rw [round_up_int_eq]
      decide
    have h := (C7_failfast cfgGood envAsmFail 0x08800000 0 rfl rfl (by decide) rfl).2.2
      0 (by simp [envAsmFail]) (Or.inl ⟨rfl, rfl⟩) rfl (by simp [h0]) (by decide)
      ⟨0, by rw [h0]; rfl⟩ (by decide)
    simpa [h0, allCC, longOf, envAsmFail] using h

theorem mem_longOf (cfg : RawConfig) (fs : List String) (f : String) :
    f ∈ longOf cfg fs ↔ f ∈ fs ∧ f ∉ cfg.shortCalls := by
  simp [longOf, List.mem_filter]

theorem runPipeline_calls_shape (cfg : RawConfig) (env : Env) (fs0 reserve : Int)
    (hf : cfg.freeSpaceParse = some fs0) (hr : cfg.reserveParse = some reserve)
    (ho : cfg.optimizationLevel ∈ validOptLevels) (ht : env.toolchainFound = true)
    (hcc : ∀ g ∈ env.srcFiles, env.cc g = 0) :
    (runPipeline cfg env).calls =
        allCC cfg env.srcFiles ++
          (if longOf cfg env.srcFiles = [] then []
            else [ToolCall.ld ((longOf cfg env.srcFiles).map objOf)]) ∨
      ∃ v, (runPipeline cfg env).calls =
        allCC cfg env.srcFiles ++
          (if longOf cfg env.srcFiles = [] then []
            else [ToolCall.ld ((longOf cfg env.srcFiles).map objOf)]) ++
          [ToolCall.armips v] := by
  rw [runPipeline_success cfg env fs0 reserve hf hr ho ht hcc]
  by_cases h1 : longOf cfg env.srcFiles = []
  · rw [if_pos h1, if_pos h1]
    simpa using afterBlob_calls env reserve fs0 (allCC cfg env.srcFiles) 0
  · rw [if_neg h1, if_neg h1]
    by_cases hld : env.ldExit = 0
    · rw [if_pos hld]
      exact afterBlob_calls env reserve fs0 _ env.ldSize
    · rw [if_neg hld]
      exact Or.inl rfl

theorem ldInputs_runPipeline (cfg : RawConfig) (env : Env) (fs0 reserve : Int)
    (hf : cfg.freeSpaceParse = some fs0) (hr : cfg.reserveParse = some reserve)
    (ho : cfg.optimizationLevel ∈ validOptLevels) (ht : env.toolchainFound = true)
    (hcc : ∀ g ∈ env.srcFiles, env.cc g = 0) :
    ldInputs (runPipeline cfg env).calls = (longOf cfg env.srcFiles).map objOf := by
  have hshape := runPipeline_calls_shape cfg env fs0 reserve hf hr ho ht hcc
  by_cases h1 : longOf cfg env.srcFiles = []
  · rcases hshape with h | ⟨v, h⟩ <;> rw [h, if_pos h1, h1]
    · simpa using ldInputs_allCC_append cfg env.srcFiles []
    · simpa using ldInputs_allCC_append cfg env.srcFiles [ToolCall.armips v]
  · rcases hshape with h | ⟨v, h⟩ <;> rw [h, if_neg h1]
    · exact ldInputs_allCC_append cfg env.srcFiles
        [ToolCall.ld ((longOf cfg env.srcFiles).map objOf)]
    · rw [List.append_assoc]
      exact ldInputs_allCC_append cfg env.srcFiles
        ([ToolCall.ld ((longOf cfg env.srcFiles).map objOf)] ++ [ToolCall.armips v])

/-- Claim C8, amended: every source file in `shortCallFiles` is compiled
with the short-call flag `-mno-long-calls` and every other source file
with the long-call flag `-mlong-calls`; provided no two source files map
to the same object name under the replace-all rename (hypothesis `hinj`),
a short-call file's object is not among the linker merge inputs and every
other file's object is.  The proviso is forced by the counterexample
`C8_counterexample`: the rename replaces every occurrence of `.c`, so the
distinct names `b.o.c` and `b.c.c` both become `b.o.o`, and a short-call
`b.o.c`'s object path then appears among the merge inputs through the
long-call `b.c.c`. -/
theorem C8_call_convention (cfg : RawConfig) (env : Env) (fs0 reserve : Int)
    (hf : cfg.freeSpaceParse = some fs0) (hr : cfg.reserveParse = some reserve)
    (ho : cfg.optimizationLevel ∈ validOptLevels) (ht : env.toolchainFound = true)
    (hcc : ∀ g ∈ env.srcFiles, env.cc g = 0)
    (hinj : ∀ g₁ ∈ env.srcFiles, ∀ g₂ ∈ env.srcFiles, objOf g₁ = objOf g₂ → g₁ = g₂)
    (f : String) (hfm : f ∈ env.srcFiles) :
    (f ∈ cfg.shortCalls →
      ToolCall.cc f shortFlag ∈ (runPipeline cfg env).calls ∧
      objOf f ∉ ldInputs (runPipeline cfg env).calls)
  ∧ (f ∉ cfg.shortCalls →
      ToolCall.cc f longFlag ∈ (runPipeline cfg env).calls ∧
      objOf f ∈ ldInputs (runPipeline cfg env).calls) := by
  have hshape := runPipeline_calls_shape cfg env fs0 reserve hf hr ho ht hcc
  have hldin := ldInputs_runPipeline cfg env fs0 reserve hf hr ho ht hcc
  have hccmem : ToolCall.cc f (ccFlag cfg f) ∈ (runPipeline cfg env).calls := by
    have hm : ToolCall.cc f (ccFlag cfg f) ∈ allCC cfg env.srcFiles :=
      List.mem_map_of_mem (fun g => ToolCall.cc g (ccFlag cfg g)) hfm
    rcases hshape with h | ⟨v, h⟩ <;> rw [h]
    · exact List.mem_append_left _ hm
    · exact List.mem_append_left _ (List.mem_append_left _ hm)
  constructor
  · intro hshort
    have hflag : ccFlag cfg f = shortFlag := by simp [ccFlag, hshort]
    refine ⟨by rw [← hflag]; exact hccmem, ?_⟩
    rw [hldin]
    intro hmem
    obtain ⟨g, hg, hobj⟩ := List.mem_map.mp hmem
    have hg2 := (mem_longOf cfg env.srcFiles g).mp hg
    exact hg2.2 (hinj g hg2.1 f hfm hobj ▸ hshort)
  · intro hlong
    have hflag : ccFlag cfg f = longFlag := by simp [ccFlag, hlong]
    refine ⟨by rw [← hflag]; exact hccmem, ?_⟩
    rw [hldin]
    exact List.mem_map_of_mem objOf ((mem_longOf cfg env.srcFiles f).mpr ⟨hfm, hlong⟩)

/-- Claim C8, counterexample: with sources `b.o.c` (short-call) and
`b.c.c` (long-call), both objects are named `b.o.o` by the replace-all
rename, so the short-call file's object path is among the linker merge
inputs, refuting the claimed exclusion for every source file set. -/
theorem C8_counterexample :
    "b.o.c" ∈ cfgC8.shortCalls
  ∧ "b.o.c" ∈ envC8.srcFiles
  ∧ objOf "b.o.c" = "b.o.o"
  ∧ objOf "b.c.c" = "b.o.o"
  ∧ objOf "b.o.c" ∈ ldInputs (runPipeline cfgC8 envC8).calls := by
  refine ⟨by decide, by decide, by decide, by decide, ?_⟩
  rw [ldInputs_runPipeline cfgC8 envC8 0x08800000 0 rfl rfl (by decide) rfl (by decide)]
  decide

/-- Witness for C8: with `cfgShort` the single file `a.c` is short-call
(compiled with `-mno-long-calls`, object kept out of the merge); with
`cfgGood` it is long-call (compiled with `-mlong-calls`, object merged). -/
theorem C8_witness :
    (ToolCall.cc "a.c" shortFlag ∈ (runPipeline cfgShort envOk).calls
      ∧ objOf "a.c" ∉ ldInputs (runPipeline cfgShort envOk).calls)
  ∧ (ToolCall.cc "a.c" longFlag ∈ (runPipeline cfgGood envOk).calls
      ∧ objOf "a.c" ∈ ldInputs (runPipeline cfgGood envOk).calls) := by
  constructor
  · exact (C8_call_convention cfgShort envOk 0x08800000 0 rfl rfl (by decide) rfl
      (by simp [envOk]) (by simp [envOk]) "a.c" (by simp [envOk])).1 (by simp [cfgShort])
  · exact (C8_call_convention cfgGood envOk 0x08800000 0 rfl rfl (by decide) rfl
      (by simp [envOk]) (by simp [envOk]) "a.c" (by simp [envOk])).2 (by simp [cfgGood])

theorem longOf_eq_nil (cfg : RawConfig) (fs : List String)
    (h : ∀ g ∈ fs, g ∈ cfg.shortCalls) : longOf cfg fs = [] := by
  simp [longOf]
  exact h

theorem neededWordsI_nonneg (reserve : Int) (b : Nat) (h : 0 ≤ reserve) :
    0 ≤ neededWordsI reserve b := by
  unfold neededWordsI
  have hb : 0 ≤ Int.ofNat b := Int.ofNat_nonneg b
  have h1 : 0 ≤ round_up_to_4_int (Int.ofNat b + reserve) := by
    rw [round_up_int_eq]
    have hm : 0 ≤ (4 - (Int.ofNat b + reserve) % 4) % 4 :=
      Int.emod_nonneg _ (by omega)
    exact add_nonneg (by omega) hm
  exact Int.ediv_nonneg h1 (by omega)

theorem neededWordsI_zero : neededWordsI 0 0 = 0 := by
  unfold neededWordsI
  rw [round_up_int_eq]
  decide

theorem ld_not_mem_allCC (cfg : RawConfig) (fs : List String) (objs : List String) :
    ToolCall.ld objs ∉ allCC cfg fs := by
  simp [allCC]

/-- Claim C9 (confirmed): when every source file is short-call (the
long-call set is empty), the blob handed to the size computation is the
zero-length placeholder file, the linker is never invoked, and the pipeline
continues: the assembler is reached and receives
`allocation_size = (ceil((0 + reserve)/4)) << 2` computed from the
zero-byte blob with no special case, the run ending with the assembler's
own exit code. -/
theorem C9_empty_merge (cfg : RawConfig) (env : Env) (fs0 reserve : Int)
    (hf : cfg.freeSpaceParse = some fs0) (hr : cfg.reserveParse = some reserve)
    (ho : cfg.optimizationLevel ∈ validOptLevels) (ht : env.toolchainFound = true)
    (hcc : ∀ g ∈ env.srcFiles, env.cc g = 0)
    (hshort : ∀ g ∈ env.srcFiles, g ∈ cfg.shortCalls)
    (haf : env.armipsFound = true) (hfs : 0 ≤ fs0) (hrv : 0 ≤ reserve)
    (hfind : ∃ a, find_needed_words env.rom (neededWordsI reserve 0).toNat
      (freeSpaceNorm fs0) env.fuel = some a) :
    blobSizeOf cfg env = 0
  ∧ (∀ objs, ToolCall.ld objs ∉ (runPipeline cfg env).calls)
  ∧ (runPipeline cfg env).calls =
      allCC cfg env.srcFiles ++
        [ToolCall.armips (Int.ofNat ((neededWordsI reserve 0).toNat <<< 2))]
  ∧ (runPipeline cfg env).outcome = Outcome.exited env.armipsExit := by
  have hlong : longOf cfg env.srcFiles = [] := longOf_eq_nil cfg env.srcFiles hshort
  obtain ⟨a, hfind⟩ := hfind
  have hnw : 0 ≤ neededWordsI reserve 0 := neededWordsI_nonneg reserve 0 hrv
  have hrun : runPipeline cfg env = afterBlob env reserve fs0 (allCC cfg env.srcFiles) 0 := by
    rw [runPipeline_success cfg env fs0 reserve hf hr ho ht hcc, if_pos hlong]
  have hab := afterBlob_success env reserve fs0 (allCC cfg env.srcFiles) 0 haf hnw hfs a hfind
  have hc : (runPipeline cfg env).calls =
      allCC cfg env.srcFiles ++
        [ToolCall.armips (Int.ofNat ((neededWordsI reserve 0).toNat <<< 2))] := by
    rw [hrun, hab]
    split <;> rfl
  have hout : (runPipeline cfg env).outcome = Outcome.exited env.armipsExit := by
    rw [hrun, hab]
    split <;> simp_all
  refine ⟨by simp [blobSizeOf, hlong], ?_, hc, hout⟩
  intro objs hmem
  rw [hc] at hmem
  rcases List.mem_append.mp hmem with h | h
  · exact ld_not_mem_allCC cfg env.srcFiles objs h
  · simp at h

/-- Witness for C9: no source files at all (so the long-call set is
empty), `reserve = 0`; the blob size is 0, no linker call is recorded, and
the run ends with the assembler's exit code 7. -/
theorem C9_witness :
    blobSizeOf cfgGood envAsmFail = 0
  ∧ (∀ objs, ToolCall.ld objs ∉ (runPipeline cfgGood envAsmFail).calls)
  ∧ (runPipeline cfgGood envAsmFail).calls =
      allCC cfgGood [] ++ [ToolCall.armips (Int.ofNat ((neededWordsI 0 0).toNat <<< 2))]
  ∧ (runPipeline cfgGood envAsmFail).outcome = Outcome.exited 7 :=
  C9_empty_merge cfgGood envAsmFail 0x08800000 0 rfl rfl (by decide) rfl
    (by simp [envAsmFail]) (by simp [envAsmFail]) rfl (by decide) (by decide)
    ⟨0, by rw [neededWordsI_zero]; rfl⟩

/-- Claim C10 (confirmed): a configuration whose `free-space` field is not
a hexadecimal integer, or whose `reserve` field is not a decimal integer,
or whose optimization level is outside the accepted set, makes the pipeline
exit with code 1 after printing a single diagnostic line naming the
offending value, with no external tool invoked (the recorded call trace is
empty).  The diagnostic is tied to the offending field, in the source's
check order: a failed `free-space` parse prints the hexadecimal line for
that string; with `free-space` fine, a failed `reserve` parse prints the
decimal line for that string; with both numeric fields fine, the bad
optimization level prints the optimization line for it. -/
theorem C10_config_validation (cfg : RawConfig) (env : Env)
    (h : cfg.freeSpaceParse = none ∨ cfg.reserveParse = none ∨
      cfg.optimizationLevel ∉ validOptLevels) :
    (runPipeline cfg env).outcome = Outcome.exited 1
  ∧ (runPipeline cfg env).calls = []
  ∧ (cfg.freeSpaceParse = none →
      (runPipeline cfg env).diag = [hexDiag cfg.freeSpaceStr])
  ∧ (cfg.freeSpaceParse ≠ none → cfg.reserveParse = none →
      (runPipeline cfg env).diag = [decDiag cfg.reserveStr])
  ∧ (cfg.freeSpaceParse ≠ none → cfg.reserveParse ≠ none →
      (runPipeline cfg env).diag = [optDiag cfg.optimizationLevel]) := by
  rcases hfs : cfg.freeSpaceParse with _ | fs0
  · unfold runPipeline
    rw [hfs]
    exact ⟨rfl, rfl, fun _ => rfl, fun hne _ => absurd rfl hne, fun hne _ => absurd rfl hne⟩
  · rcases hrv : cfg.reserveParse with _ | reserve
    · unfold runPipeline
      rw [hfs, hrv]
      exact ⟨rfl, rfl, fun hc => Option.noConfusion hc, fun _ _ => rfl,
        fun _ hne => absurd rfl hne⟩
    · have hopt : cfg.optimizationLevel ∉ validOptLevels := by
        rcases h with h | h | h
        · rw [hfs] at h; cases h
        · rw [hrv] at h; cases h
        · exact h
      unfold runPipeline
      rw [hfs, hrv]
      dsimp only
      rw [if_neg hopt]
      exact ⟨rfl, rfl, fun hc => Option.noConfusion hc, fun _ hc => Option.noConfusion hc,
        fun _ _ => rfl⟩

/-- Witness for C10, exercising two of the three fields: with `cfgBadHex`
the `free-space` string `xyz` fails the hexadecimal parse and exactly its
diagnostic is printed; with `cfgBadOpt` both numeric fields are fine and
the unaccepted level `-O9` gets exactly the optimization diagnostic.  Both
runs exit 1 with an empty tool-call trace. -/
theorem C10_witness :
    ((runPipeline cfgBadHex envOk).outcome = Outcome.exited 1
      ∧ (runPipeline cfgBadHex envOk).calls = []
      ∧ (runPipeline cfgBadHex envOk).diag = [hexDiag "xyz"])
  ∧ ((runPipeline cfgBadOpt envOk).outcome = Outcome.exited 1
      ∧ (runPipeline cfgBadOpt envOk).calls = []
      ∧ (runPipeline cfgBadOpt envOk).diag = [optDiag "-O9"]) := by
  have h1 := C10_config_validation cfgBadHex envOk (Or.inl rfl)
  have h2 := C10_config_validation cfgBadOpt envOk (Or.inr (Or.inr (by decide)))
  exact ⟨⟨h1.1, h1.2.1, h1.2.2.1 rfl⟩,
    ⟨h2.1, h2.2.1, h2.2.2.2.2 (by decide) (by decide)⟩⟩
